import Mathlib

/-!
Verification of the hyperMCP tool server (ts repository).

The development shallowly embeds the dispatch / envelope / serialization core
of the repository:

* `serializeBigInt`       — src/src/tools/hypersync.ts, lines 87–109
* `getNetworkEndpoint`    — src/src/tools/hypersync.ts, lines 393–431
* `getEndpoint`           — src/src/tools/hypersync.ts, lines 433–448
* `queryLogs` (response formatting) — src/src/tools/hypersync.ts, lines 111–213
* `execTool` skeletons of the four tool groups
* `callToolHandler`       — the CallToolRequestSchema handler of the server
  entry point (src/unnamed/part_002, lines 126–146)
* `validateConfig`        — src/src/tools/hyperindex.ts, lines 954–999
* `ConfigValidator.validate` — src/src/utils/validators.ts, lines 15–57
* `configureMultichain`   — src/src/tools/hyperindex.ts, lines 368–395
* the advertised tool-name registry of the ListToolsRequestSchema handler

JavaScript values flowing through the tools are modelled by the inductive
`JsValue`; exceptions by `JsThrown`; the external collaborators (HyperSync
client, subprocess CLI, filesystem, `yaml.parse`/`yaml.stringify`,
`JSON.stringify`) are out of scope per the spec and appear as explicit
parameters or pre-parsed inputs.
-/

set_option maxRecDepth 16000

namespace HyperMCP

/-- JSON-shaped JavaScript runtime values, as produced and consumed by the
tool layer: `null`, `undefined`, booleans, numbers, strings, bigints,
arrays, and plain objects (ordered field lists). -/
inductive JsValue where
  | null
  | undefined
  | bool (b : Bool)
  | num (n : Int)
  | str (s : String)
  | bigint (n : Int)
  | arr (elems : List JsValue)
  | obj (fields : List (String × JsValue))

/-- Equality test on `JsValue` (structural). -/
def JsValue.beq : JsValue → JsValue → Bool
  | .null, .null => true
  | .undefined, .undefined => true
  | .bool a, .bool b => a == b
  | .num a, .num b => a == b
  | .str a, .str b => a == b
  | .bigint a, .bigint b => a == b
  | .arr xs, .arr ys => beqList xs ys
  | .obj xs, .obj ys => beqObj xs ys
  | _, _ => false
where
  beqList : List JsValue → List JsValue → Bool
    | [], [] => true
    | x :: xs, y :: ys => x.beq y && beqList xs ys
    | _, _ => false
  beqObj : List (String × JsValue) → List (String × JsValue) → Bool
    | [], [] => true
    | (k, v) :: xs, (l, w) :: ys => k == l && v.beq w && beqObj xs ys
    | _, _ => false

instance : BEq JsValue := ⟨JsValue.beq⟩

/-- JavaScript truthiness of a value: `null`, `undefined`, `false`, `0`,
`0n` and `""` are falsy; every other value (including empty arrays and
empty objects) is truthy. -/
def jsTruthy : JsValue → Bool
  | .null => false
  | .undefined => false
  | .bool b => b
  | .num n => n != 0
  | .str s => s != ""
  | .bigint n => n != 0
  | .arr _ => true
  | .obj _ => true

/-- JavaScript `a || b`: `a` when truthy, otherwise `b`. -/
def jsOr (a b : JsValue) : JsValue := if jsTruthy a then a else b

/-- Property read `args.k` on an argument bag: the first binding of `k` in
an object, `undefined` when the key is absent or the value is not an
object. -/
def getField (args : JsValue) (k : String) : JsValue :=
  match args with
  | .obj kvs => (kvs.lookup k).getD .undefined
  | _ => .undefined

/-- How a value prints inside a JS template literal, for the cases the
embedded code reaches: `undefined`/`null` print as the words, strings print
verbatim, numbers and bigints in decimal, booleans as `true`/`false`. -/
def jsDisplay : JsValue → String
  | .null => "null"
  | .undefined => "undefined"
  | .bool b => if b then "true" else "false"
  | .num n => toString n
  | .str s => s
  | .bigint n => toString n
  | .arr _ => ""
  | .obj _ => ""

/-- `.length` of a value as it prints in a template literal: array and
string lengths in decimal, `undefined` for values with no `length`
property. -/
def jsLengthDisplay : JsValue → String
  | .arr xs => toString xs.length
  | .str s => toString s.data.length
  | _ => "undefined"

/-- JavaScript `toLowerCase` (character-wise lowering; the network keys in
this repository are ASCII). -/
def jsToLowerCase (s : String) : String := ⟨s.data.map Char.toLower⟩

mutual

/-- `serializeBigInt` — src/src/tools/hypersync.ts lines 87–109.  Recursive
helper converting every `bigint` in a JSON-shaped value to its decimal
string; `null`/`undefined` pass through, arrays map element-wise, objects
map key-wise, other primitives are returned unchanged. -/
def serializeBigInt : JsValue → JsValue
  | .null => .null
  | .undefined => .undefined
  | .bigint n => .str (toString n)
  | .arr xs => .arr (serializeBigIntList xs)
  | .obj kvs => .obj (serializeBigIntObj kvs)
  | .bool b => .bool b
  | .num n => .num n
  | .str s => .str s

/-- Element-wise action of `serializeBigInt` on an array's elements
(the `obj.map(item => this.serializeBigInt(item))` line). -/
def serializeBigIntList : List JsValue → List JsValue
  | [] => []
  | x :: xs => serializeBigInt x :: serializeBigIntList xs

/-- Key-wise action of `serializeBigInt` on an object's fields
(the `for (const key in obj)` loop). -/
def serializeBigIntObj : List (String × JsValue) → List (String × JsValue)
  | [] => []
  | (k, v) :: kvs => (k, serializeBigInt v) :: serializeBigIntObj kvs

end

/-- A single content block of a tool response (`{ type: "text", text }`). -/
structure ContentBlock where
  type : String
  text : String
deriving Repr, DecidableEq

/-- The uniform response envelope every tool returns: a list of content
blocks plus the `isError` flag (absent in the source on success, modelled
as the default `false`). -/
structure ToolResult where
  content : List ContentBlock
  isError : Bool := false
deriving Repr, DecidableEq

/-- The text of a result's first content block (every embedded tool returns
exactly one block). -/
def resultText (r : ToolResult) : String :=
  ((r.content.head?).getD ⟨"text", ""⟩).text

/-- Substring test used to state "the response text contains …":
the needle's character list is an infix of the haystack's. -/
def strContains (hay needle : String) : Prop := needle.data <:+: hay.data

instance (hay needle : String) : Decidable (strContains hay needle) := by
  unfold strContains; infer_instance

/-- One entry of the static network table of `getNetworkEndpoint`
(src/src/tools/hypersync.ts lines 396–407). -/
structure NetworkInfo where
  url : String
  name : String
  chainId : Nat
deriving Repr, DecidableEq

/-- The static `networks` table of `getNetworkEndpoint`, in source order. -/
def hypersyncNetworks : List (String × NetworkInfo) :=
  [ ("ethereum", ⟨"https://eth.hypersync.xyz", "Ethereum Mainnet", 1⟩),
    ("arbitrum", ⟨"https://arbitrum.hypersync.xyz", "Arbitrum One", 42161⟩),
    ("base", ⟨"https://base.hypersync.xyz", "Base", 8453⟩),
    ("optimism", ⟨"https://optimism.hypersync.xyz", "Optimism", 10⟩),
    ("polygon", ⟨"https://polygon.hypersync.xyz", "Polygon", 137⟩),
    ("bsc", ⟨"https://bsc.hypersync.xyz", "BSC", 56⟩),
    ("avalanche", ⟨"https://avalanche.hypersync.xyz", "Avalanche", 43114⟩),
    ("gnosis", ⟨"https://gnosis.hypersync.xyz", "Gnosis Chain", 100⟩),
    ("linea", ⟨"https://linea.hypersync.xyz", "Linea", 59144⟩),
    ("scroll", ⟨"https://scroll.hypersync.xyz", "Scroll", 534352⟩) ]

/-- The `networks[network_name?.toLowerCase()]` lookup: `undefined` when
`network_name` is not a string key of the table. -/
def lookupNetwork (network_name : JsValue) : Option NetworkInfo :=
  match network_name with
  | .str s => hypersyncNetworks.lookup (jsToLowerCase s)
  | _ => none

/-- The "Supported:" listing built in the not-found branch: one
`- **key**: name (chainId)` line per table entry, joined by newlines. -/
def allNetworksListing : String :=
  String.intercalate "\n"
    (hypersyncNetworks.map fun kv =>
      "- **" ++ kv.1 ++ "**: " ++ kv.2.name ++ " (" ++ toString kv.2.chainId ++ ")")

/-- The error text of `getNetworkEndpoint` for an unrecognized name. -/
def endpointNotFoundText (network_name : JsValue) : String :=
  "❌ Network \"" ++ jsDisplay network_name ++ "\" not found.\n\n**Supported:**\n"
    ++ allNetworksListing

/-- The success text of `getNetworkEndpoint` (literal `{`/`}` of the code
sample written as hex escapes). -/
def endpointSuccessText (net : NetworkInfo) : String :=
  "✅ **" ++ net.name ++ "** (Chain ID: " ++ toString net.chainId
    ++ ")\n\n**URL:** " ++ net.url
    ++ "\n\n**Usage:**\n```typescript\nimport \x7b HypersyncClient \x7d from \"@envio-dev/hypersync-client\";\n\nconst client = HypersyncClient.new(\x7b\n  url: \"" ++ net.url ++ "\"\n\x7d);\n```"

/-- `getNetworkEndpoint` — src/src/tools/hypersync.ts lines 393–431.  Pure
static lookup of the HyperSync endpoint for a network name; unknown names
get an `isError` envelope listing every supported network. -/
def getNetworkEndpoint (args : JsValue) : ToolResult :=
  let network_name := getField args "network_name"
  match lookupNetwork network_name with
  | none =>
      { content := [⟨"text", endpointNotFoundText network_name⟩], isError := true }
  | some net =>
      { content := [⟨"text", endpointSuccessText net⟩] }

/-- The `map` of `getEndpoint` — src/src/tools/hypersync.ts lines 434–445. -/
def endpointMap : List (String × String) :=
  [ ("ethereum", "https://eth.hypersync.xyz"),
    ("arbitrum", "https://arbitrum.hypersync.xyz"),
    ("base", "https://base.hypersync.xyz"),
    ("polygon", "https://polygon.hypersync.xyz"),
    ("optimism", "https://optimism.hypersync.xyz"),
    ("bsc", "https://bsc.hypersync.xyz"),
    ("avalanche", "https://avalanche.hypersync.xyz"),
    ("gnosis", "https://gnosis.hypersync.xyz"),
    ("linea", "https://linea.hypersync.xyz"),
    ("scroll", "https://scroll.hypersync.xyz") ]

/-- `getEndpoint` — src/src/tools/hypersync.ts lines 433–448: lower-cased
lookup with the Ethereum endpoint as fallback. -/
def getEndpoint (network : String) : String :=
  (endpointMap.lookup (jsToLowerCase network)).getD "https://eth.hypersync.xyz"

/-- The `res.data` page delivered by the HyperSync stream collaborator
(`logs`/`blocks` arrays may be absent). -/
structure StreamData where
  logs : Option (List JsValue)
  blocks : Option (List JsValue)

/-- The `res` value delivered by `stream.recv()`: an optional data page,
the continuation cursor `nextBlock`, and an optional `archiveHeight`. -/
structure StreamResult where
  data : Option StreamData
  nextBlock : Int
  archiveHeight : Option Int

/-- Outcome of the `client.stream` / `stream.recv()` collaborator calls
inside the `try` of `queryLogs`: a page, a falsy `res`, or a thrown error
with a message. -/
inductive RecvOutcome where
  | ok (res : StreamResult)
  | noData
  | errMsg (message : String)

/-- `res.data?.logs || []` (and its `blocks` twin). -/
def pageLogs (res : StreamResult) : List JsValue :=
  (res.data.bind StreamData.logs).getD []

/-- `res.data?.blocks || []`. -/
def pageBlocks (res : StreamResult) : List JsValue :=
  (res.data.bind StreamData.blocks).getD []

/-- The `**Archive height:**` line, emitted only when `res.archiveHeight`
is truthy (absent or `0` suppress it). -/
def archiveHeightLine (res : StreamResult) : String :=
  match res.archiveHeight with
  | some h => if h != 0 then "**Archive height:** " ++ toString h ++ "\n" else ""
  | none => ""

/-- Response formatting of `queryLogs` — src/src/tools/hypersync.ts lines
160–213.  `network` is the destructured string argument; `stringify`
stands for the JavaScript builtin `JSON.stringify(·, null, 2)` applied to
the displayed sample; `outcome` is the collaborator's behaviour.  The query
object built on lines 120–158 is consumed only by the external client and
carries no information into the response text, so it is not replayed
here. -/
def queryLogs (network : String) (stringify : List JsValue → String)
    (outcome : RecvOutcome) : ToolResult :=
  let endpoint := getEndpoint network
  match outcome with
  | .noData =>
      { content := [⟨"text", "❌ No data received from stream"⟩], isError := true }
  | .errMsg message =>
      { content := [⟨"text",
          "❌ Query failed: " ++ message
            ++ "\n\n**Troubleshooting:**\n- Endpoint: " ++ endpoint
            ++ "\n- Check address format (0x...)\n- Reduce block range\n- Try smaller max_num_logs"⟩],
        isError := true }
  | .ok res =>
      let logs := serializeBigIntList (pageLogs res)
      let blocks := serializeBigIntList (pageBlocks res)
      let sample :=
        if logs.length > 0 then
          "\n**Sample logs (first 3):**\n```json\n" ++ stringify (logs.take 3) ++ "\n```\n"
        else
          "\n**Note:** No logs found in this range."
      let output :=
        "✅ Query successful!\n\n"
          ++ "**Network:** " ++ network ++ "\n"
          ++ "**Endpoint:** " ++ endpoint ++ "\n"
          ++ "**Logs found:** " ++ toString logs.length ++ "\n"
          ++ "**Blocks processed:** " ++ toString blocks.length ++ "\n"
          ++ "**Next block:** " ++ toString res.nextBlock ++ "\n"
          ++ archiveHeightLine res
          ++ sample
          ++ "\n\n**Pagination:** To continue, use `from_block: " ++ toString res.nextBlock ++ "`"
      { content := [⟨"text", output⟩] }

/-- A thrown JavaScript exception: either `new Error(message)` or an SDK
`McpError(code, message)` (whose inherited `message` is
`MCP error <code>: <message>`). -/
inductive JsThrown where
  | plainError (message : String)
  | mcpError (code : Int) (message : String)
deriving Repr, DecidableEq

/-- The `.message` property of the thrown value (every throw site in the
embedded code throws an `Error` instance, so the
`error instanceof Error ? error.message : String(error)` read always takes
the first branch). -/
def JsThrown.jsMessage : JsThrown → String
  | .plainError m => m
  | .mcpError c m => "MCP error " ++ toString c ++ ": " ++ m

/-- Result of running one tool-group `executeTool`: a returned envelope or
a thrown exception. -/
abbrev ExecResult := Except JsThrown ToolResult

/-- `HyperSyncTools.executeTool` — src/src/tools/hypersync.ts lines 71–84:
the `switch` over the four `hypersync_` tools, whose per-tool bodies (all
collaborator-dependent) are passed as parameters; any other name throws
`Unknown tool: <name>`. -/
def HyperSyncTools.executeTool
    (ql qt bq gne : JsValue → ExecResult) (name : String) (args : JsValue) : ExecResult :=
  match name with
  | "hypersync_query_logs" => ql args
  | "hypersync_query_transactions" => qt args
  | "hypersync_build_query" => bq args
  | "hypersync_get_network_endpoint" => gne args
  | _ => .error (.plainError ("Unknown tool: " ++ name))

/-- The full `hypersync_query_logs` tool body: destructures `network` from
the argument bag, then runs `getEndpoint(network)`, which calls
`network.toLowerCase()` — a `TypeError` when the required `network` field
is absent (longhand for the Node runtime messages).  The collaborator and
`JSON.stringify` are parameters as in `queryLogs`. -/
def queryLogsCall (stringify : List JsValue → String) (outcome : RecvOutcome)
    (args : JsValue) : ExecResult :=
  match getField args "network" with
  | .str network => .ok (queryLogs network stringify outcome)
  | .undefined => .error (.plainError "Cannot read properties of undefined (reading 'toLowerCase')")
  | .null => .error (.plainError "Cannot read properties of null (reading 'toLowerCase')")
  | _ => .error (.plainError "network.toLowerCase is not a function")

/-- `name.startsWith(p)` of JavaScript, stated on the character lists. -/
def jsStartsWith (name p : String) : Bool := p.data.isPrefixOf name.data

/-- The `try` body of the `CallToolRequestSchema` handler —
src/unnamed/part_002 lines 129–139: route by namespace prefix to the
owning tool group's `executeTool` (the four groups are parameters), and
throw `McpError(ErrorCode.MethodNotFound = -32601, "Unknown tool: <name>")`
when no prefix matches. -/
def dispatchBody
    (hyperindexExec hypersyncExec docsExec configExec : String → JsValue → ExecResult)
    (name : String) (args : JsValue) : ExecResult :=
  if jsStartsWith name "hyperindex_" then hyperindexExec name args
  else if jsStartsWith name "hypersync_" then hypersyncExec name args
  else if jsStartsWith name "docs_" then docsExec name args
  else if jsStartsWith name "config_" then configExec name args
  else .error (.mcpError (-32601) ("Unknown tool: " ++ name))

/-- The `CallToolRequestSchema` handler — src/unnamed/part_002 lines
126–146.  Runs `dispatchBody`; its `catch` rewraps everything thrown inside
the `try` — the unmatched-name `McpError` included — into a rethrown
`McpError(ErrorCode.InternalError = -32603,
"Tool execution failed: <message>")`.  The handler never returns a
`ToolResult` for a thrown exception and never terminates the process. -/
def callToolHandler
    (hyperindexExec hypersyncExec docsExec configExec : String → JsValue → ExecResult)
    (name : String) (args : JsValue) : Except JsThrown ToolResult :=
  match dispatchBody hyperindexExec hypersyncExec docsExec configExec name args with
  | .ok r => .ok r
  | .error e => .error (.mcpError (-32603) ("Tool execution failed: " ++ e.jsMessage))

/-- Whether a handler outcome is a normally returned envelope. -/
def handlerReturns : Except JsThrown ToolResult → Bool
  | .ok _ => true
  | .error _ => false

/-- The error list built by `validateConfig` — src/src/tools/hyperindex.ts
lines 971–975: one message per missing (falsy) top-level field, in source
order. -/
def validateConfigErrors (config : JsValue) : List String :=
  (if !jsTruthy (getField config "name") then ["Missing 'name' field"] else [])
    ++ (if !jsTruthy (getField config "networks") then ["Missing 'networks' array"] else [])
    ++ (if !jsTruthy (getField config "contracts") then ["Missing 'contracts' array"] else [])

/-- `validateConfig` — src/src/tools/hyperindex.ts lines 954–999, from the
point where the document has been parsed (`yaml.parse` and the
`config_path` file read are external; a parse failure takes the `catch`
branch, not modelled here).  Rejects with one bullet per missing top-level
field, otherwise reports the document valid. -/
def validateConfig (config : JsValue) : ToolResult :=
  let errors := validateConfigErrors config
  if errors.length > 0 then
    { content := [⟨"text",
        "❌ Validation errors:\n"
          ++ String.intercalate "\n" (errors.map fun e => "• " ++ e)⟩],
      isError := true }
  else
    { content := [⟨"text",
        "✅ Config is valid!\n\n**Name:** " ++ jsDisplay (getField config "name")
          ++ "\n**Networks:** " ++ jsLengthDisplay (getField config "networks")
          ++ "\n**Contracts:** " ++ jsLengthDisplay (getField config "contracts")⟩] }

/-- The `ValidationResult` record of src/src/utils/validators.ts lines
8–12. -/
structure ValidationResult where
  valid : Bool
  errors : List String
  warnings : List String
deriving Repr, DecidableEq

/-- The per-network errors pushed by the `config.networks.forEach` loop of
`ConfigValidator.validate` (validators.ts lines 34–43): a falsy `id` and a
`startblock`/`start_block` pair both `=== undefined` each add one indexed
message.  (Field reads on a non-object entry yield `undefined`, as in the
source for non-object primitives.) -/
def networkFieldErrors : Nat → List JsValue → List String
  | _, [] => []
  | idx, net :: rest =>
      (if !jsTruthy (getField net "id") then
        ["Network " ++ toString idx ++ ": Missing 'id' field"] else [])
        ++ (if getField net "startblock" == JsValue.undefined
              && getField net "start_block" == JsValue.undefined then
             ["Network " ++ toString idx ++ ": Missing 'startblock'"] else [])
        ++ networkFieldErrors (idx + 1) rest

/-- `config.networks?.length > 1` of the multichain-warning guard. -/
def networksLengthGtOne (networks : JsValue) : Bool :=
  match networks with
  | .arr nets => nets.length > 1
  | .str s => s.data.length > 1
  | _ => false

/-- `ConfigValidator.validate` — src/src/utils/validators.ts lines 15–57,
from the parsed document (`yaml.parse` external; its `catch` branch not
modelled): checks `name`, that `networks` is a (truthy) array, per-network
`id` and start-block fields, and emits the multichain warning; `valid`
is `true` exactly when no error was pushed. -/
def ConfigValidator.validate (config : JsValue) : ValidationResult :=
  let nameErrors :=
    if !jsTruthy (getField config "name") then ["Missing required field: name"] else []
  let networksField := getField config "networks"
  let networksErrors :=
    match networksField with
    | .arr nets => networkFieldErrors 0 nets
    | _ => ["Missing or invalid 'networks' array"]
  let errors := nameErrors ++ networksErrors
  let warnings :=
    if getField config "unorderedmultichainmode" == JsValue.undefined
        && networksLengthGtOne networksField then
      ["Multi-chain setup: Consider setting unorderedmultichainmode to true for better performance"]
    else []
  { valid := errors.isEmpty, errors := errors, warnings := warnings }

/-- The configuration object built by `configureMultichain` —
src/src/tools/hyperindex.ts lines 368–379: note
`unorderedmultichainmode: unordered_mode || true`. -/
def configureMultichainConfig (networks : List JsValue) (unordered_mode : JsValue) : JsValue :=
  .obj
    [ ("name", .str "multi-chain-indexer"),
      ("unorderedmultichainmode", jsOr unordered_mode (.bool true)),
      ("networks", .arr (networks.map fun net => .obj
        [ ("id", getField net "id"),
          ("start_block", jsOr (getField net "start_block") (.num 0)),
          ("contracts", jsOr (getField net "contracts") (.arr [])) ])) ]

/-- `configureMultichain` — src/src/tools/hyperindex.ts lines 368–395:
renders the config object through `yaml.stringify` (external, passed as
`stringifyYaml`) into the success envelope, with the trailing note keyed on
the truthiness of the raw `unordered_mode` argument. -/
def configureMultichain (stringifyYaml : JsValue → String)
    (networks : List JsValue) (unordered_mode : JsValue) : ToolResult :=
  let config := configureMultichainConfig networks unordered_mode
  let yamlContent := stringifyYaml config
  { content := [⟨"text",
      "✅ Multi-chain configuration:\n\n```yaml\n" ++ yamlContent ++ "\n```\n\n"
        ++ (if jsTruthy unordered_mode then
             "✅ Unordered mode: Better performance, events processed as they arrive"
           else
             "⚠️ Ordered mode: Strict ordering across chains, slower sync")⟩] }

/-- The JS-boolean value of the schema-typed `unordered_mode` argument:
absent, `true`, or `false`. -/
def boolArg : Option Bool → JsValue
  | none => .undefined
  | some b => .bool b

/-- The `name` fields of `HyperIndexTools.getToolDefinitions()`
(src/src/tools/hyperindex.ts lines 438–643), in registration order. -/
def hyperIndexToolNames : List String :=
  [ "hyperindex_init_project",
    "hyperindex_init_contract_import_explorer",
    "hyperindex_init_contract_import_local",
    "hyperindex_init_template",
    "hyperindex_dev",
    "hyperindex_codegen",
    "hyperindex_start",
    "hyperindex_stop",
    "hyperindex_local_docker_up",
    "hyperindex_local_docker_down",
    "hyperindex_local_db_migrate_setup",
    "hyperindex_benchmark_summary",
    "hyperindex_validate_config",
    "hyperindex_generate_handler",
    "hyperindex_check_installation" ]

/-- The `name` fields of `HyperSyncTools.getToolDefinitions()`
(src/src/tools/hypersync.ts lines 9–69), in registration order. -/
def hyperSyncToolNames : List String :=
  [ "hypersync_query_logs",
    "hypersync_query_transactions",
    "hypersync_build_query",
    "hypersync_get_network_endpoint" ]

/-- The `name` fields of `DocumentationTools.getToolDefinitions()`
(src/unnamed/part_001 lines 11–62), in registration order. -/
def docsToolNames : List String :=
  [ "docs_search",
    "docs_get_config_reference",
    "docs_get_examples",
    "docs_troubleshoot_error" ]

/-- The `name` fields of `ConfigTools.getToolDefinitions()`
(src/src/tools/config.ts lines 5–45), in registration order. -/
def configToolNames : List String :=
  [ "config_create_template",
    "config_add_network",
    "config_add_contract" ]

/-- The names advertised by the `ListToolsRequestSchema` handler
(src/unnamed/part_002 lines 115–124): the concatenation of the four
groups' descriptor lists in registration order. -/
def registryToolNames : List String :=
  hyperIndexToolNames ++ hyperSyncToolNames ++ docsToolNames ++ configToolNames

/-! ## Helper lemmas -/

theorem serializeBigIntList_eq_map (xs : List JsValue) :
    serializeBigIntList xs = xs.map serializeBigInt := by
  induction xs with
  | nil => rfl
  | cons x xs ih => simp [serializeBigIntList, ih]

theorem serializeBigIntObj_eq_map (kvs : List (String × JsValue)) :
    serializeBigIntObj kvs = kvs.map fun kv => (kv.1, serializeBigInt kv.2) := by
  induction kvs with
  | nil => rfl
  | cons kv kvs ih =>
      cases kv with
      | mk k v => simp [serializeBigIntObj, ih]

mutual

theorem serializeBigInt_idempotent (v : JsValue) :
    serializeBigInt (serializeBigInt v) = serializeBigInt v := by
  cases v with
  | null => rfl
  | undefined => rfl
  | bool b => rfl
  | num n => rfl
  | str s => rfl
  | bigint n => rfl
  | arr xs => simp [serializeBigInt, serializeBigIntList_idempotent xs]
  | obj kvs => simp [serializeBigInt, serializeBigIntObj_idempotent kvs]

theorem serializeBigIntList_idempotent (xs : List JsValue) :
    serializeBigIntList (serializeBigIntList xs) = serializeBigIntList xs := by
  cases xs with
  | nil => rfl
  | cons x xs =>
      simp [serializeBigIntList, serializeBigInt_idempotent x,
        serializeBigIntList_idempotent xs]

theorem serializeBigIntObj_idempotent (kvs : List (String × JsValue)) :
    serializeBigIntObj (serializeBigIntObj kvs) = serializeBigIntObj kvs := by
  cases kvs with
  | nil => rfl
  | cons kv rest =>
      cases kv with
      | mk k v =>
          simp [serializeBigIntObj, serializeBigInt_idempotent v,
            serializeBigIntObj_idempotent rest]

end

theorem strContains_intro (hay n : String) (u v : List Char)
    (h : u ++ n.data ++ v = hay.data) : strContains hay n := ⟨u, v, h⟩

theorem strContains_append_right (a b n : String) (h : strContains b n) :
    strContains (a ++ b) n := by
  unfold strContains at *
  rw [String.data_append]
  exact h.trans (List.suffix_append a.data b.data).isInfix

theorem strContains_append_left (a b n : String) (h : strContains a n) :
    strContains (a ++ b) n := by
  unfold strContains at *
  rw [String.data_append]
  exact h.trans (List.prefix_append a.data b.data).isInfix

theorem strContains_pagination (A ts : String) :
    strContains (((A ++ "\n\n**Pagination:** To continue, use `from_block: ") ++ ts) ++ "`")
      (("use `from_block: " ++ ts) ++ "`") := by
  refine strContains_intro _ _ (A.data ++ "\n\n**Pagination:** To continue, ".data) [] ?_
  simp only [String.data_append, List.append_nil, List.append_assoc]
  refine congrArg (A.data ++ ·) ?_
  rw [← List.append_assoc]
  exact congrArg (· ++ _) (by decide)

theorem strContains_sample_block (st : String) :
    strContains (("\n**Sample logs (first 3):**\n```json\n" ++ st) ++ "\n```\n") st := by
  refine strContains_intro _ _
    "\n**Sample logs (first 3):**\n```json\n".data "\n```\n".data ?_
  simp [String.data_append, List.append_assoc]

/-! ## Claim theorems -/

/-- C1: the large-integer serializer maps `null` and `undefined` to
themselves, maps every bigint to its exact decimal string, maps an array
by applying itself to each element in order, maps an object by applying
itself to the value of every key, and returns every other primitive
(string, number, boolean) unchanged — the eight cases cover every
JSON-shaped input. -/
theorem serializeBigInt_case_analysis :
    serializeBigInt .null = .null ∧
    serializeBigInt .undefined = .undefined ∧
    (∀ n : Int, serializeBigInt (.bigint n) = .str (toString n)) ∧
    (∀ xs : List JsValue, serializeBigInt (.arr xs) = .arr (xs.map serializeBigInt)) ∧
    (∀ kvs : List (String × JsValue),
      serializeBigInt (.obj kvs) = .obj (kvs.map fun kv => (kv.1, serializeBigInt kv.2))) ∧
    (∀ s : String, serializeBigInt (.str s) = .str s) ∧
    (∀ n : Int, serializeBigInt (.num n) = .num n) ∧
    (∀ b : Bool, serializeBigInt (.bool b) = .bool b) := by
  refine ⟨rfl, rfl, fun n => rfl, fun xs => ?_, fun kvs => ?_,
    fun s => rfl, fun n => rfl, fun b => rfl⟩
  · simp [serializeBigInt, serializeBigIntList_eq_map]
  · simp [serializeBigInt, serializeBigIntObj_eq_map]

/-- C3: the serializer is idempotent on every JSON-shaped input (it is
total by construction — a Lean function), and applied to a record holding
the 128-bit-magnitude integer 2^127 it yields that value's exact base-10
decimal string. -/
theorem serializeBigInt_idem_and_exact :
    (∀ v : JsValue, serializeBigInt (serializeBigInt v) = serializeBigInt v) ∧
    serializeBigInt (.obj [("amount", .bigint 170141183460469231731687303715884105728)])
      = .obj [("amount", .str "170141183460469231731687303715884105728")] :=
  ⟨serializeBigInt_idempotent, rfl⟩

/-- C9: every descriptor name advertised by the list-tools handler — the
concatenation of the four tool groups' descriptor lists — is unique. -/
theorem registryToolNames_unique : registryToolNames.Nodup := by decide

/-- C10: the configuration object generated by
`hyperindex_configure_multichain` sets `unorderedmultichainmode` to `true`
for every (schema-typed boolean, possibly absent) `unordered_mode`
argument — `false` included — because the value is computed as
`unordered_mode || true`. -/
theorem configureMultichain_unordered_always_true
    (networks : List JsValue) (b : Option Bool) :
    getField (configureMultichainConfig networks (boolArg b)) "unorderedmultichainmode"
      = .bool true := by
  cases b with
  | none => rfl
  | some bb => cases bb <;> rfl

/-- C6: `hypersync_get_network_endpoint` is a pure function of its
arguments (equal inputs give equal envelopes, and a found network's
envelope is determined by its static table row); for `network_name`
`"base"` it succeeds with the fixed Base endpoint URL and chain id 8453;
for every unrecognized `network_name` it returns an `isError` envelope
listing all supported network names. -/
theorem getNetworkEndpoint_spec :
    (∀ a b : JsValue, a = b → getNetworkEndpoint a = getNetworkEndpoint b) ∧
    (∀ (args : JsValue) (net : NetworkInfo),
       lookupNetwork (getField args "network_name") = some net →
       getNetworkEndpoint args = { content := [⟨"text", endpointSuccessText net⟩] }) ∧
    ((getNetworkEndpoint (.obj [("network_name", .str "base")])).isError = false ∧
      strContains (resultText (getNetworkEndpoint (.obj [("network_name", .str "base")])))
        "https://base.hypersync.xyz" ∧
      strContains (resultText (getNetworkEndpoint (.obj [("network_name", .str "base")])))
        "8453") ∧
    (∀ args : JsValue, lookupNetwork (getField args "network_name") = none →
       (getNetworkEndpoint args).isError = true ∧
       ∀ k ∈ hypersyncNetworks.map Prod.fst,
         strContains (resultText (getNetworkEndpoint args)) k) := by
  refine ⟨fun a b h => by rw [h], fun args net h => ?_, ⟨rfl, by decide, by decide⟩,
    fun args h => ?_⟩
  · simp [getNetworkEndpoint, h]
  · refine ⟨by simp [getNetworkEndpoint, h], fun k hk => ?_⟩
    simp only [getNetworkEndpoint, h, resultText, endpointNotFoundText,
      List.head?, Option.getD]
    apply strContains_append_right
    fin_cases hk <;> decide

/-- Witness for C6 at concrete inputs: purity and the found case at
`"base"`, the not-found case at an empty argument bag (whose
`network_name` is `undefined`). -/
theorem getNetworkEndpoint_spec_witness :
    (getNetworkEndpoint (.obj [("network_name", .str "base")])
        = getNetworkEndpoint (.obj [("network_name", .str "base")])) ∧
    (getNetworkEndpoint (.obj [("network_name", .str "base")])
        = { content := [⟨"text",
            endpointSuccessText ⟨"https://base.hypersync.xyz", "Base", 8453⟩⟩] }) ∧
    (getNetworkEndpoint (.obj [])).isError = true ∧
    strContains (resultText (getNetworkEndpoint (.obj []))) "scroll" :=
  ⟨getNetworkEndpoint_spec.1 _ _ rfl,
   getNetworkEndpoint_spec.2.1 (.obj [("network_name", .str "base")]) _ rfl,
   (getNetworkEndpoint_spec.2.2.2 (.obj []) rfl).1,
   (getNetworkEndpoint_spec.2.2.2 (.obj []) rfl).2 "scroll" (by decide)⟩

/-- C7: every successful `hypersync_query_logs` page yields a non-error
envelope whose text carries the pagination hint
``use `from_block: <nextBlock>` ``; when logs are present the displayed
sample is the stringification of only the first 3 (serialized) records;
and on the Scenario-B stub (zero logs, `nextBlock` 101) the text reports
the zero count (rendered `**Logs found:** 0`) and the hint
`from_block: 101`. -/
theorem queryLogs_pagination_spec :
    (∀ (network : String) (stringify : List JsValue → String) (res : StreamResult),
       (queryLogs network stringify (.ok res)).isError = false ∧
       strContains (resultText (queryLogs network stringify (.ok res)))
         ("use `from_block: " ++ toString res.nextBlock ++ "`")) ∧
    (∀ (network : String) (stringify : List JsValue → String) (res : StreamResult),
       0 < (serializeBigIntList (pageLogs res)).length →
       strContains (resultText (queryLogs network stringify (.ok res)))
         (stringify ((serializeBigIntList (pageLogs res)).take 3))) ∧
    (∀ stringify : List JsValue → String,
       (queryLogs "ethereum" stringify (.ok ⟨some ⟨some [], some []⟩, 101, none⟩)).isError
         = false ∧
       strContains
         (resultText (queryLogs "ethereum" stringify (.ok ⟨some ⟨some [], some []⟩, 101, none⟩)))
         "**Logs found:** 0" ∧
       strContains
         (resultText (queryLogs "ethereum" stringify (.ok ⟨some ⟨some [], some []⟩, 101, none⟩)))
         "from_block: 101") := by
  refine ⟨fun network stringify res => ⟨rfl, ?_⟩, fun network stringify res h => ?_,
    fun stringify => ⟨rfl, of_decide_eq_true rfl, of_decide_eq_true rfl⟩⟩
  · exact strContains_pagination _ _
  · simp only [queryLogs, resultText, List.head?, Option.getD]
    rw [if_pos h]
    apply strContains_append_left
    apply strContains_append_left
    apply strContains_append_left
    apply strContains_append_right
    exact strContains_sample_block _

/-- Witness for C7 at a concrete one-log page: the sample-truncation part
applied with its positivity hypothesis discharged. -/
theorem queryLogs_pagination_spec_witness :
    0 < (serializeBigIntList (pageLogs ⟨some ⟨some [JsValue.bigint 5], some []⟩, 7, none⟩)).length ∧
    strContains
      (resultText (queryLogs "base" (fun _ => "SAMPLE")
        (.ok ⟨some ⟨some [JsValue.bigint 5], some []⟩, 7, none⟩)))
      "SAMPLE" :=
  ⟨by decide,
   queryLogs_pagination_spec.2.1 "base" (fun _ => "SAMPLE")
     ⟨some ⟨some [JsValue.bigint 5], some []⟩, 7, none⟩ (by decide)⟩

theorem networkFieldErrors_mem_id : ∀ (k idx : Nat) (nets : List JsValue) (net : JsValue),
    nets.get? idx = some net → jsTruthy (getField net "id") = false →
    ("Network " ++ toString (k + idx) ++ ": Missing 'id' field") ∈ networkFieldErrors k nets
  | _, _, [], _, h, _ => by simp at h
  | k, 0, t :: _, net, h, hid => by
      obtain rfl : t = net := by simpa using h
      simp [networkFieldErrors, hid]
  | k, i + 1, t :: rest, net, h, hid => by
      have h' : rest.get? i = some net := by simpa using h
      have hmem := networkFieldErrors_mem_id (k + 1) i rest net h' hid
      have hk : k + (i + 1) = (k + 1) + i := by omega
      rw [hk]
      show _ ∈ networkFieldErrors k (t :: rest)
      simp only [networkFieldErrors]
      exact List.mem_append_right _ hmem

theorem networkFieldErrors_mem_startblock :
    ∀ (k idx : Nat) (nets : List JsValue) (net : JsValue),
    nets.get? idx = some net →
    (getField net "startblock" == JsValue.undefined
      && getField net "start_block" == JsValue.undefined) = true →
    ("Network " ++ toString (k + idx) ++ ": Missing 'startblock'") ∈ networkFieldErrors k nets
  | _, _, [], _, h, _ => by simp at h
  | k, 0, t :: _, net, h, hsb => by
      obtain rfl : t = net := by simpa using h
      simp [networkFieldErrors, hsb]
  | k, i + 1, t :: rest, net, h, hsb => by
      have h' : rest.get? i = some net := by simpa using h
      have hmem := networkFieldErrors_mem_startblock (k + 1) i rest net h' hsb
      have hk : k + (i + 1) = (k + 1) + i := by omega
      rw [hk]
      show _ ∈ networkFieldErrors k (t :: rest)
      simp only [networkFieldErrors]
      exact List.mem_append_right _ hmem

/-- C2 (amended): every exception raised inside the dispatcher's `try` —
whether thrown by a tool group, a collaborator, or the unmatched-name
check — is caught at the boundary and converted into an
`McpError(InternalError = -32603)` whose message carries the original
exception's message; the handler never lets a raw (non-`McpError`)
exception escape and, being a total function, never terminates the
process.  It does NOT, however, return a `ToolResult` envelope with
`isError = true` for a thrown exception: the failure surfaces as a
protocol-level `McpError`. -/
theorem callToolHandler_fault_boundary
    (hx sx dx cx : String → JsValue → ExecResult) (name : String) (args : JsValue) :
    (∃ r : ToolResult, callToolHandler hx sx dx cx name args = .ok r) ∨
    (∃ e : JsThrown, callToolHandler hx sx dx cx name args
        = .error (.mcpError (-32603) ("Tool execution failed: " ++ e.jsMessage))) := by
  cases h : dispatchBody hx sx dx cx name args with
  | ok r => exact Or.inl ⟨r, by simp [callToolHandler, h]⟩
  | error e => exact Or.inr ⟨e, by simp [callToolHandler, h]⟩

/-- C2 counterexample: calling `hypersync_query_logs` with an empty
argument bag makes the tool group throw a `TypeError`; the dispatcher does
NOT return a `ToolResult` envelope with `isError = true` — it rethrows a
protocol-level `McpError(-32603)` carrying the message, so the claim as
stated is false at this input. -/
theorem callToolHandler_exception_cex :
    callToolHandler (fun _ _ => .error (.plainError "ignored"))
      (HyperSyncTools.executeTool (queryLogsCall (fun _ => "") .noData)
        (fun _ => .error (.plainError "ignored")) (fun _ => .error (.plainError "ignored"))
        (fun _ => .error (.plainError "ignored")))
      (fun _ _ => .error (.plainError "ignored")) (fun _ _ => .error (.plainError "ignored"))
      "hypersync_query_logs" (.obj [])
      = .error (.mcpError (-32603)
          "Tool execution failed: Cannot read properties of undefined (reading 'toLowerCase')") ∧
    handlerReturns
      (callToolHandler (fun _ _ => .error (.plainError "ignored"))
        (HyperSyncTools.executeTool (queryLogsCall (fun _ => "") .noData)
          (fun _ => .error (.plainError "ignored")) (fun _ => .error (.plainError "ignored"))
          (fun _ => .error (.plainError "ignored")))
        (fun _ _ => .error (.plainError "ignored")) (fun _ _ => .error (.plainError "ignored"))
        "hypersync_query_logs" (.obj [])) = false :=
  ⟨rfl, rfl⟩

/-- C4 (amended): the dispatcher routes every inbound call to the tool
group owning its namespace prefix, in source order; a call matching no
prefix raises `McpError(MethodNotFound = -32601, "Unknown tool: <name>")`
internally, but the handler's own `catch` rewraps it, so the caller sees an
`InternalError (-32603)` whose message merely embeds the method-not-found
text — the same error class as a matched group's internal unknown-tool
failure, distinguishable only by message.  The handler is stateless, so
subsequent calls are unaffected. -/
theorem dispatch_routing_spec
    (hx sx dx cx : String → JsValue → ExecResult) (name : String) (args : JsValue) :
    (jsStartsWith name "hyperindex_" = true →
       dispatchBody hx sx dx cx name args = hx name args) ∧
    (jsStartsWith name "hyperindex_" = false → jsStartsWith name "hypersync_" = true →
       dispatchBody hx sx dx cx name args = sx name args) ∧
    (jsStartsWith name "hyperindex_" = false → jsStartsWith name "hypersync_" = false →
       jsStartsWith name "docs_" = true →
       dispatchBody hx sx dx cx name args = dx name args) ∧
    (jsStartsWith name "hyperindex_" = false → jsStartsWith name "hypersync_" = false →
       jsStartsWith name "docs_" = false → jsStartsWith name "config_" = true →
       dispatchBody hx sx dx cx name args = cx name args) ∧
    (jsStartsWith name "hyperindex_" = false → jsStartsWith name "hypersync_" = false →
       jsStartsWith name "docs_" = false → jsStartsWith name "config_" = false →
       callToolHandler hx sx dx cx name args
         = .error (.mcpError (-32603)
             ("Tool execution failed: MCP error -32601: Unknown tool: " ++ name))) := by
  refine ⟨fun h1 => by simp [dispatchBody, h1],
    fun h1 h2 => by simp [dispatchBody, h1, h2],
    fun h1 h2 h3 => by simp [dispatchBody, h1, h2, h3],
    fun h1 h2 h3 h4 => by simp [dispatchBody, h1, h2, h3, h4],
    fun h1 h2 h3 h4 => ?_⟩
  simp only [callToolHandler, dispatchBody, h1, h2, h3, h4, Bool.false_eq_true,
    if_false, JsThrown.jsMessage]
  refine congrArg (fun s => Except.error (JsThrown.mcpError (-32603) s)) ?_
  simp only [← String.append_assoc]
  exact congrArg (· ++ name) (by decide)

/-- Witness for C4 at concrete inputs: a `hyperindex_`-prefixed name routes
to the first group, and the unregistered name `"nonexistent_tool"` yields
the rewrapped `-32603` error. -/
theorem dispatch_routing_spec_witness :
    dispatchBody (fun _ _ => Except.ok ({ content := [⟨"text", "ok"⟩] } : ToolResult))
      (fun _ _ => Except.ok ({ content := [⟨"text", "ok"⟩] } : ToolResult))
      (fun _ _ => Except.ok ({ content := [⟨"text", "ok"⟩] } : ToolResult))
      (fun _ _ => Except.ok ({ content := [⟨"text", "ok"⟩] } : ToolResult))
      "hyperindex_codegen" .null
      = Except.ok ({ content := [⟨"text", "ok"⟩] } : ToolResult) ∧
    callToolHandler (fun _ _ => Except.ok ({ content := [⟨"text", "ok"⟩] } : ToolResult))
      (fun _ _ => Except.ok ({ content := [⟨"text", "ok"⟩] } : ToolResult))
      (fun _ _ => Except.ok ({ content := [⟨"text", "ok"⟩] } : ToolResult))
      (fun _ _ => Except.ok ({ content := [⟨"text", "ok"⟩] } : ToolResult))
      "nonexistent_tool" .null
      = .error (.mcpError (-32603)
          ("Tool execution failed: MCP error -32601: Unknown tool: " ++ "nonexistent_tool")) :=
  ⟨(dispatch_routing_spec _ _ _ _ "hyperindex_codegen" .null).1 (by decide),
   (dispatch_routing_spec _ _ _ _ "nonexistent_tool" .null).2.2.2.2
     (by decide) (by decide) (by decide) (by decide)⟩

/-- C4 counterexample: at the unregistered name `"nonexistent_tool"` the
caller-visible failure carries error code `-32603` (InternalError) — not a
method-not-found-class error — and a matched group's unknown-tool failure
(`"hypersync_nope"`) carries the very same code, so the two failure kinds
are not distinct error classes as the claim states. -/
theorem dispatch_unmatched_cex :
    callToolHandler (fun _ _ => .error (.plainError "ignored"))
      (fun _ _ => .error (.plainError "ignored")) (fun _ _ => .error (.plainError "ignored"))
      (fun _ _ => .error (.plainError "ignored")) "nonexistent_tool" (.obj [])
      = .error (.mcpError (-32603)
          "Tool execution failed: MCP error -32601: Unknown tool: nonexistent_tool") ∧
    callToolHandler (fun _ _ => .error (.plainError "ignored"))
      (HyperSyncTools.executeTool (fun _ => .error (.plainError "ignored"))
        (fun _ => .error (.plainError "ignored")) (fun _ => .error (.plainError "ignored"))
        (fun _ => .error (.plainError "ignored")))
      (fun _ _ => .error (.plainError "ignored")) (fun _ _ => .error (.plainError "ignored"))
      "hypersync_nope" (.obj [])
      = .error (.mcpError (-32603) "Tool execution failed: Unknown tool: hypersync_nope") :=
  ⟨rfl, rfl⟩

/-- C5: evaluating `hypersync_query_logs` at an argument bag that omits the
required `network` field: the call fails with the `TypeError` thrown by
`network.toLowerCase()` inside `getEndpoint` — not with an
"invalid arguments" rejection; no required-field validation runs before
the tool body. -/
theorem executeTool_missing_required_field
    (stringify : List JsValue → String) (outcome : RecvOutcome)
    (qt bq gne : JsValue → ExecResult) :
    HyperSyncTools.executeTool (queryLogsCall stringify outcome) qt bq gne
      "hypersync_query_logs" (.obj [])
      = .error (.plainError "Cannot read properties of undefined (reading 'toLowerCase')") :=
  rfl

/-- C8 (amended): `hyperindex_validate_config` rejects a document missing
`name`, `networks` or `contracts` with one bullet per missing field — on
Scenario C's parsed `{name: "x"}` it lists exactly the missing `networks`
and `contracts` — and accepts any document in which all three fields are
truthy; it performs no per-network checks.  Per-network `id`/start-block
checking lives in `ConfigValidator.validate`, which emits one indexed
message per missing per-network field. -/
theorem validateConfig_spec :
    (validateConfig (.obj [("name", .str "x")])
      = { content := [⟨"text",
          "❌ Validation errors:\n• Missing 'networks' array\n• Missing 'contracts' array"⟩],
          isError := true }) ∧
    (∀ config : JsValue, (validateConfig config).isError = false ↔
       (jsTruthy (getField config "name") = true ∧
        jsTruthy (getField config "networks") = true ∧
        jsTruthy (getField config "contracts") = true)) ∧
    (∀ (config : JsValue) (nets : List JsValue) (idx : Nat) (net : JsValue),
       getField config "networks" = .arr nets → nets.get? idx = some net →
       jsTruthy (getField net "id") = false →
       ("Network " ++ toString idx ++ ": Missing 'id' field")
         ∈ (ConfigValidator.validate config).errors) ∧
    (∀ (config : JsValue) (nets : List JsValue) (idx : Nat) (net : JsValue),
       getField config "networks" = .arr nets → nets.get? idx = some net →
       getField net "startblock" = .undefined → getField net "start_block" = .undefined →
       ("Network " ++ toString idx ++ ": Missing 'startblock'")
         ∈ (ConfigValidator.validate config).errors) := by
  refine ⟨by decide, fun config => ?_, fun config nets idx net hn hi hid => ?_,
    fun config nets idx net hn hi hsb1 hsb2 => ?_⟩
  · cases h1 : jsTruthy (getField config "name")
      <;> cases h2 : jsTruthy (getField config "networks")
      <;> cases h3 : jsTruthy (getField config "contracts")
      <;> simp [validateConfig, validateConfigErrors, h1, h2, h3]
  · have hmem := networkFieldErrors_mem_id 0 idx nets net hi hid
    rw [Nat.zero_add] at hmem
    simp only [ConfigValidator.validate, hn]
    exact List.mem_append_right _ hmem
  · have hsb : (getField net "startblock" == JsValue.undefined
        && getField net "start_block" == JsValue.undefined) = true := by
      rw [hsb1, hsb2]; rfl
    have hmem := networkFieldErrors_mem_startblock 0 idx nets net hi hsb
    rw [Nat.zero_add] at hmem
    simp only [ConfigValidator.validate, hn]
    exact List.mem_append_right _ hmem

/-- Witness for C8 at concrete documents: a complete document is accepted
by the tool validator, and `ConfigValidator.validate` flags the network
with missing `id` and start-block. -/
theorem validateConfig_spec_witness :
    (validateConfig (.obj [("name", .str "x"), ("networks", .arr [.obj []]),
        ("contracts", .arr [])])).isError = false ∧
    ("Network 0: Missing 'id' field")
      ∈ (ConfigValidator.validate (.obj [("name", .str "x"),
          ("networks", .arr [.obj []]), ("contracts", .arr [])])).errors ∧
    ("Network 0: Missing 'startblock'")
      ∈ (ConfigValidator.validate (.obj [("name", .str "x"),
          ("networks", .arr [.obj []]), ("contracts", .arr [])])).errors :=
  ⟨(validateConfig_spec.2.1 _).mpr ⟨rfl, rfl, rfl⟩,
   validateConfig_spec.2.2.1 _ [.obj []] 0 (.obj []) rfl rfl rfl,
   validateConfig_spec.2.2.2 _ [.obj []] 0 (.obj []) rfl rfl rfl rfl⟩

/-- C8 counterexample: a document whose single network has neither `id`
nor a start-block field is nevertheless ACCEPTED by
`hyperindex_validate_config` (`isError = false`) — the claim's "rejects …
missing any network's id or start-block field" is false for the tool; the
per-network messages exist only in `ConfigValidator.validate`'s result. -/
theorem validateConfig_missing_network_fields_cex :
    (validateConfig (.obj [("name", .str "x"), ("networks", .arr [.obj []]),
        ("contracts", .arr [])])).isError = false ∧
    (ConfigValidator.validate (.obj [("name", .str "x"), ("networks", .arr [.obj []]),
        ("contracts", .arr [])])).errors
      = ["Network 0: Missing 'id' field", "Network 0: Missing 'startblock'"] :=
  ⟨rfl, rfl⟩

end HyperMCP
